import Mathlib

/-
Verification of the playlist-mover server (Flask app in app.py, helpers in
models.py) through a shallow embedding.  Network and database effects are
modelled by oracle functions packed in a World structure, and the provider
and database calls an endpoint issues are reported as an explicit event
trace, so that claims about which calls are (not) made become statements
about that trace.  Exception text raised by provider SDK calls is not
observable to us, so failing oracle calls produce fixed error strings.
-/

/-- Python truthiness of an optional string field as used by the request
validation code: both a missing field and the empty string are falsy. -/
def pyTruthyOpt : Option String → Bool
  | none => false
  | some s => !s.isEmpty

/-- Session-id validation shared by the Tidal endpoints: mirrors
the guard "if not session_id or session_id not in tidal_sessions". -/
def validSession (sessions : List String) (sid : Option String) : Bool :=
  match sid with
  | none => false
  | some s => (!s.isEmpty) && sessions.contains s

/-- Track payload as sent by the client: name, artist and album strings. -/
structure Track where
  name : String
  artist : String
  album : String
deriving DecidableEq, Repr

/-- Playlist object returned by the Tidal SDK, reduced to the fields the
endpoint reads back (its id and name). -/
structure TidalPlaylist where
  id : Nat
  name : String
deriving DecidableEq, Repr

/-- Outcome of get_user_from_code plus the rate-limit check, as seen by the
migrate endpoints: the user resolved and the check ran, the user resolved
but check_rate_limit raised (caught by the surrounding except), no user
could be resolved, or the resolution call raised. -/
inductive UserRes where
  | ok (uid : String)
  | okCheckRaised (uid : String)
  | noUser
  | raised
deriving DecidableEq, Repr

/-- How far the database-logging block of a completed migration gets before
an exception (swallowed by its inner try/except) interrupts it: the block
performs the Migration insert, then increment_usage, then log_activity. -/
inductive LedgerOutcome where
  | ok
  | failInsert
  | failIncrement
  | failLog
deriving DecidableEq, Repr

/-- Provider and database calls issued while serving a request. -/
inductive Ev where
  | checkRateLimit (uid : String) (limit : Nat)
  | searchCall (q : String)
  | favAdd (tid : Nat)
  | fetchPlaylist (pid : String)
  | playlistAdd (pid : Nat) (tids : List Nat)
  | createPlaylist (name description : String)
  | recordMigration (status : String)
  | incrementUsage (uid : String) (tracksCount : Nat)
  | logActivity (uid : String)
deriving DecidableEq, Repr

/-- Body of the migrate endpoints' success JSON response. -/
structure SuccessBody where
  playlist_id : Option Nat
  playlist_name : String
  total_tracks : Nat
  migrated : Nat
  not_found : Nat
  not_found_tracks : List Track
deriving DecidableEq, Repr

/-- HTTP response of the migrate endpoint: 400 on validation failure, 429
when the daily quota is exhausted, 200 with a SuccessBody, or 500 when a
playlist fetch, create or bulk-add raised. -/
inductive Response where
  | badRequest (error : String)
  | quotaExceeded (error : String) (limit : Nat)
  | ok (body : SuccessBody)
  | serverError (error : String)
deriving DecidableEq, Repr

/-- Request body of POST /migrate_tracks. -/
structure Request where
  spotify_code : Option String
  tidal_session_id : Option String
  tracks : List Track
  playlist_name : String
  target_playlist_id : Option String
  add_to_favorites : Bool
deriving Repr

/-- The world the migrate endpoint runs against: the live Tidal session map,
the user-resolution outcome, today's ApiUsage counter for the user, the
configured daily limit, and oracles for every Tidal SDK call the endpoint
can make.  An oracle returning none models the SDK call raising. -/
structure World where
  sessions : List String
  userRes : UserRes
  usageCount : Option Nat
  rateLimit : Nat
  search : String → Option (List Nat)
  favAddOk : Nat → Bool
  fetchPlaylist : String → Option TidalPlaylist
  createPlaylist : String → String → Option TidalPlaylist
  bulkAddOk : Nat → List Nat → Bool
  ledger : LedgerOutcome

/-- check_rate_limit from models.py: with no ApiUsage row for today the
request is allowed with the full limit remaining; otherwise remaining is
limit minus count, allowed iff it is positive, reported clamped at zero. -/
def check_rate_limit (usage : Option Nat) (daily_limit : Nat) : Bool × Nat :=
  match usage with
  | none => (true, daily_limit)
  | some count =>
    let remaining : Int := (daily_limit : Int) - (count : Int)
    (decide (0 < remaining), remaining.toNat)

/-- increment_usage from models.py acting on the (count, tracks_count) pair
of today's ApiUsage row: bump count by one and tracks_count by the number
of tracks processed, creating the row at (1, tracks_count) if absent. -/
def increment_usage (usage : Option (Nat × Nat)) (tracks_count : Nat) : Nat × Nat :=
  match usage with
  | some (c, tc) => (c + 1, tc + tracks_count)
  | none => (1, tracks_count)

/-- Search query built per track: "{name} {artist}". -/
def searchQuery (t : Track) : String := t.name ++ " " ++ t.artist

/-- Did a search outcome yield at least one candidate?  none models the
search call raising, some [] a search with zero results. -/
def searchHit : Option (List Nat) → Bool
  | some (_ :: _) => true
  | some [] => false
  | none => false

/-- Result of the sequential search loop: matched Tidal track ids, tracks
not found, and the trace of search calls, each in input order. -/
structure SearchOut where
  ids : List Nat
  nf : List Track
  evs : List Ev
deriving Repr

/-- The search loop of migrate_tracks: for each track issue one search with
the track's query; take the first candidate's id on a hit, otherwise (zero
results, or the call raised) record the track as not found and continue. -/
def searchPhase (s : String → Option (List Nat)) : List Track → SearchOut
  | [] => { ids := [], nf := [], evs := [] }
  | t :: ts =>
    let r := searchPhase s ts
    match s (searchQuery t) with
    | some (tid :: _) =>
      { ids := tid :: r.ids, nf := r.nf, evs := Ev.searchCall (searchQuery t) :: r.evs }
    | some [] =>
      { ids := r.ids, nf := t :: r.nf, evs := Ev.searchCall (searchQuery t) :: r.evs }
    | none =>
      { ids := r.ids, nf := t :: r.nf, evs := Ev.searchCall (searchQuery t) :: r.evs }

/-- The unmatched tracks of a request, in input order: those whose single
search either raised or returned no candidate. -/
def unmatchedOf (s : String → Option (List Nat)) (ts : List Track) : List Track :=
  ts.filter (fun t => !searchHit (s (searchQuery t)))

/-- Outcome of the user-resolution and rate-limit section: the resolved
user if any, the trace of that section, and the early 429 response when
the check denied the request. -/
structure QuotaOut where
  user : Option String
  evs : List Ev
  halt : Option Response
deriving Repr

/-- The user-tracking section of migrate_tracks: resolve the user from the
Spotify code; when a user is found run check_rate_limit and answer 429 if
it denies; any exception in the section is caught and the request
proceeds without a user. -/
def quotaPhase (w : World) : QuotaOut :=
  match w.userRes with
  | UserRes.ok uid =>
    let ar := check_rate_limit w.usageCount w.rateLimit
    { user := some uid
      evs := [Ev.checkRateLimit uid w.rateLimit]
      halt := if ar.1 then none
              else some (Response.quotaExceeded "Daily migration limit reached" w.rateLimit) }
  | UserRes.okCheckRaised uid =>
    { user := some uid, evs := [Ev.checkRateLimit uid w.rateLimit], halt := none }
  | UserRes.noUser => { user := none, evs := [], halt := none }
  | UserRes.raised => { user := none, evs := [], halt := none }

/-- Outcome of the destination branch: the resulting playlist id and name
plus the migration_type tag and trace on success; the error and the trace
up to the raising call on failure.  favs lists the ids whose individual
favorites-add call succeeded (the favorites destination only). -/
inductive DestRes where
  | ok (pid : Option Nat) (pname : String) (mtype : String) (evs : List Ev) (favs : List Nat)
  | fail (err : String) (evs : List Ev)
deriving Repr

/-- The new-playlist destination: create the playlist (a raise fails the
request), then bulk-add the matched ids in one call when any exist. -/
def newPlaylistPhase (req : Request) (w : World) (ids : List Nat) : DestRes :=
  match w.createPlaylist req.playlist_name "Migrated from Spotify" with
  | none =>
    DestRes.fail "create_playlist raised"
      [Ev.createPlaylist req.playlist_name "Migrated from Spotify"]
  | some pl =>
    if ids.isEmpty then
      DestRes.ok (some pl.id) pl.name "new_playlist"
        [Ev.createPlaylist req.playlist_name "Migrated from Spotify"] []
    else if w.bulkAddOk pl.id ids then
      DestRes.ok (some pl.id) pl.name "new_playlist"
        [Ev.createPlaylist req.playlist_name "Migrated from Spotify",
         Ev.playlistAdd pl.id ids] []
    else
      DestRes.fail "playlist add raised"
        [Ev.createPlaylist req.playlist_name "Migrated from Spotify",
         Ev.playlistAdd pl.id ids]

/-- The destination branch of migrate_tracks, in the if/elif/else order of
the source: favorites first (each matched id added individually, failures
swallowed), else an existing playlist when target_playlist_id is truthy
(fetch then one bulk add), else a new playlist. -/
def destPhase (req : Request) (w : World) (ids : List Nat) : DestRes :=
  if req.add_to_favorites then
    DestRes.ok none "Favorites" "favorites" (ids.map Ev.favAdd) (ids.filter w.favAddOk)
  else
    match req.target_playlist_id with
    | some pid =>
      if pid.isEmpty then newPlaylistPhase req w ids
      else
        match w.fetchPlaylist pid with
        | none => DestRes.fail "playlist fetch raised" [Ev.fetchPlaylist pid]
        | some pl =>
          if ids.isEmpty then
            DestRes.ok (some pl.id) pl.name "existing_playlist" [Ev.fetchPlaylist pid] []
          else if w.bulkAddOk pl.id ids then
            DestRes.ok (some pl.id) pl.name "existing_playlist"
              [Ev.fetchPlaylist pid, Ev.playlistAdd pl.id ids] []
          else
            DestRes.fail "playlist add raised"
              [Ev.fetchPlaylist pid, Ev.playlistAdd pl.id ids]
    | none => newPlaylistPhase req w ids

/-- The database-logging block of a completed migration, as the list of
database calls that are reached before the modelled exception point; the
surrounding try/except means a failure never changes the response. -/
def ledgerEvents (o : LedgerOutcome) (uid : String) (totalTracks : Nat) : List Ev :=
  match o with
  | LedgerOutcome.failInsert => [Ev.recordMigration "completed"]
  | LedgerOutcome.failIncrement =>
    [Ev.recordMigration "completed", Ev.incrementUsage uid totalTracks]
  | LedgerOutcome.failLog =>
    [Ev.recordMigration "completed", Ev.incrementUsage uid totalTracks, Ev.logActivity uid]
  | LedgerOutcome.ok =>
    [Ev.recordMigration "completed", Ev.incrementUsage uid totalTracks, Ev.logActivity uid]

/-- Full result of serving /migrate_tracks: the HTTP response, the ordered
trace of provider and database calls, and the track ids actually added to
the user's favorites (empty for the playlist destinations). -/
structure MigrateResult where
  resp : Response
  events : List Ev
  favoritesAdded : List Nat
deriving Repr

/-- Body of migrate_tracks after request validation: the quota section may
answer 429 before any Tidal call; otherwise every track is searched, the
destination branch runs, a completed migration is logged (failures there
swallowed), and the success body reports the uncapped counts with the
not-found list truncated to 10 entries; a destination failure answers 500
after recording a failed Migration row when a user is known. -/
def migrate_body (req : Request) (w : World) : MigrateResult :=
  match (quotaPhase w).halt with
  | some resp => { resp := resp, events := (quotaPhase w).evs, favoritesAdded := [] }
  | none =>
    match destPhase req w (searchPhase w.search req.tracks).ids with
    | DestRes.ok pid pname _mt dEvs favs =>
      { resp := Response.ok
          { playlist_id := pid
            playlist_name := pname
            total_tracks := req.tracks.length
            migrated := (searchPhase w.search req.tracks).ids.length
            not_found := (searchPhase w.search req.tracks).nf.length
            not_found_tracks := (searchPhase w.search req.tracks).nf.take 10 }
        events := (quotaPhase w).evs ++ (searchPhase w.search req.tracks).evs ++ dEvs ++
          (match (quotaPhase w).user with
           | some uid => ledgerEvents w.ledger uid req.tracks.length
           | none => [])
        favoritesAdded := favs }
    | DestRes.fail err dEvs =>
      { resp := Response.serverError err
        events := (quotaPhase w).evs ++ (searchPhase w.search req.tracks).evs ++ dEvs ++
          (match (quotaPhase w).user with
           | some _uid => [Ev.recordMigration "failed"]
           | none => [])
        favoritesAdded := [] }

/-- POST /migrate_tracks: validate the Spotify code, the Tidal session and
a non-empty track list, then run the body. -/
def migrate_tracks (req : Request) (w : World) : MigrateResult :=
  if pyTruthyOpt req.spotify_code = false then
    { resp := Response.badRequest "Spotify authorization required"
      events := [], favoritesAdded := [] }
  else if validSession w.sessions req.tidal_session_id = false then
    { resp := Response.badRequest "Tidal authorization required"
      events := [], favoritesAdded := [] }
  else if req.tracks.isEmpty then
    { resp := Response.badRequest "No tracks provided"
      events := [], favoritesAdded := [] }
  else migrate_body req w

/-- Classifier for the target-provider calls named by the quota claim:
search, favorites add, playlist fetch, playlist bulk-add, create. -/
def isProviderCall : Ev → Bool
  | Ev.searchCall _ => true
  | Ev.favAdd _ => true
  | Ev.fetchPlaylist _ => true
  | Ev.playlistAdd _ _ => true
  | Ev.createPlaylist _ _ => true
  | _ => false

/-- Classifier for the tracking calls: the rate-limit check, the Migration
row insert, the usage increment and the activity log. -/
def isTrackingEv : Ev → Bool
  | Ev.checkRateLimit _ _ => true
  | Ev.recordMigration _ => true
  | Ev.incrementUsage _ _ => true
  | Ev.logActivity _ => true
  | _ => false

/-- Classifier for destination calls: favorites add, playlist fetch,
playlist bulk-add and playlist create. -/
def isDestCall : Ev → Bool
  | Ev.favAdd _ => true
  | Ev.fetchPlaylist _ => true
  | Ev.playlistAdd _ _ => true
  | Ev.createPlaylist _ _ => true
  | _ => false

/-- Event list carried by a destination outcome. -/
def destEvsOf : DestRes → List Ev
  | DestRes.ok _ _ _ evs _ => evs
  | DestRes.fail _ evs => evs

/-- Database calls issued after the destination branch: the full logging
block on a completed migration when a user is known, the failed Migration
insert on a destination failure, nothing when no user was resolved. -/
def ledgerTail (req : Request) (w : World) : List Ev :=
  match destPhase req w (searchPhase w.search req.tracks).ids, (quotaPhase w).user with
  | DestRes.ok _ _ _ _ _, some uid => ledgerEvents w.ledger uid req.tracks.length
  | DestRes.fail _ _, some _ => [Ev.recordMigration "failed"]
  | _, none => []

/-- Tidal user object behind tidal_session.user, with the attributes the
check-auth endpoint probes for (name and first_name may be absent). -/
structure RawTidalUser where
  id : Nat
  name : Option String
  first_name : Option String
deriving DecidableEq, Repr

/-- Python "a or b" over an optional string attribute: a missing attribute
and the empty string both fall through to the alternative. -/
def pyOrStr (a : Option String) (b : String) : String :=
  match a with
  | some s => if s.isEmpty then b else s
  | none => b

/-- User summary embedded in the authenticated check-auth response. -/
structure AuthUser where
  id : String
  name : String
deriving DecidableEq, Repr

/-- JSON body of the check-auth response; a key the endpoint omits is
modelled as none. -/
structure AuthBody where
  authenticated : Bool
  error : Option String
  user : Option AuthUser
deriving DecidableEq, Repr

/-- World of the check-auth endpoint: the session map, whether the session's
background authorization future is done, the error it raised if any, and
the session's user object (none when tidal_session.user is None). -/
structure AuthWorld where
  sessions : List String
  futureDone : String → Bool
  futureErr : String → Option String
  sessionUser : String → Option RawTidalUser

/-- POST /tidal/check_auth: with a missing or unknown session id answer
authenticated false with the "Invalid session" error at status 200;
otherwise report the three-way state of the authorization future.  Every
branch of the source handler returns a JSON value, so the embedding is a
total function and the invalid-session branch in particular runs before
any call that could raise. -/
def tidal_check_auth (session_id : Option String) (w : AuthWorld) : AuthBody × Nat :=
  match session_id with
  | none => ({ authenticated := false, error := some "Invalid session", user := none }, 200)
  | some sid =>
    if sid.isEmpty || !w.sessions.contains sid then
      ({ authenticated := false, error := some "Invalid session", user := none }, 200)
    else if w.futureDone sid then
      match w.futureErr sid with
      | some e => ({ authenticated := false, error := some e, user := none }, 200)
      | none =>
        match w.sessionUser sid with
        | some u =>
          ({ authenticated := true, error := none
             user := some { id := toString u.id
                            name := pyOrStr u.name (pyOrStr u.first_name (toString u.id)) } },
           200)
        | none =>
          ({ authenticated := true, error := none
             user := some { id := "unknown", name := "Tidal User" } }, 200)
    else ({ authenticated := false, error := none, user := none }, 200)

/-- Request body of POST /tidal/merge_playlists. -/
structure MergeReq where
  session_id : Option String
  source_playlist_id : Option String
  target_playlist_id : Option String
deriving Repr

/-- World of the merge endpoint: the session map, the current track-id
contents of the source and the target playlists, whether the two playlist
fetches (and their tracks() calls) succeed, which individual add calls
succeed, and whether the final delete succeeds. -/
structure MergeWorld where
  sessions : List String
  sourceTracks : List Nat
  targetTracks : List Nat
  fetchOk : Bool
  addOk : Nat → Bool
  deleteOk : Bool

/-- Provider calls issued by the merge endpoint. -/
inductive MEv where
  | fetchPlaylist (pid : String)
  | addTrack (tid : Nat)
  | deleteSource
deriving DecidableEq, Repr

/-- HTTP response of the merge endpoint. -/
inductive MResp where
  | badRequest (error : String)
  | ok (message : String) (tracks_added tracks_skipped : Nat) (source_deleted : Bool)
  | serverError (error : String)
deriving DecidableEq, Repr

/-- Result of the merge endpoint: the response, the target playlist's
contents afterwards, whether the source playlist was deleted, and the
ordered call trace. -/
structure MergeResult where
  resp : MResp
  targetAfter : List Nat
  sourceDeleted : Bool
  events : List MEv
deriving Repr

/-- POST /tidal/merge_playlists: validate the session, both playlist ids
and their distinctness; fetch both playlists; add, one call per track,
exactly the source tracks whose id is not among the target's current
track ids (an individual add failure is logged and skipped); finally
delete the source playlist.  tracks_added counts the successful adds and
tracks_skipped is the number of source tracks minus it. -/
def tidal_merge_playlists (req : MergeReq) (w : MergeWorld) : MergeResult :=
  if validSession w.sessions req.session_id = false then
    { resp := MResp.badRequest "Invalid session"
      targetAfter := w.targetTracks, sourceDeleted := false, events := [] }
  else if pyTruthyOpt req.source_playlist_id = false ∨
      pyTruthyOpt req.target_playlist_id = false then
    { resp := MResp.badRequest "Both source and target playlist IDs required"
      targetAfter := w.targetTracks, sourceDeleted := false, events := [] }
  else if req.source_playlist_id = req.target_playlist_id then
    { resp := MResp.badRequest "Cannot merge a playlist with itself"
      targetAfter := w.targetTracks, sourceDeleted := false, events := [] }
  else if w.fetchOk = false then
    { resp := MResp.serverError "playlist fetch raised"
      targetAfter := w.targetTracks, sourceDeleted := false, events := [] }
  else
    let srcId := req.source_playlist_id.getD ""
    let tgtId := req.target_playlist_id.getD ""
    let tracks_to_add := w.sourceTracks.filter (fun t => decide (t ∉ w.targetTracks))
    let added := tracks_to_add.filter w.addOk
    let addEvs := tracks_to_add.map MEv.addTrack
    if w.deleteOk then
      { resp := MResp.ok ("Merged " ++ toString added.length ++ " tracks into target playlist")
          added.length (w.sourceTracks.length - added.length) true
        targetAfter := w.targetTracks ++ added
        sourceDeleted := true
        events := [MEv.fetchPlaylist srcId, MEv.fetchPlaylist tgtId] ++ addEvs ++
          [MEv.deleteSource] }
    else
      { resp := MResp.serverError "playlist delete raised"
        targetAfter := w.targetTracks ++ added
        sourceDeleted := false
        events := [MEv.fetchPlaylist srcId, MEv.fetchPlaylist tgtId] ++ addEvs }

/- Concrete tracks, requests and worlds used by the witness theorems. -/

/-- Sample track "Song A" by "Artist X". -/
def trackA : Track := { name := "Song A", artist := "Artist X", album := "Album A" }

/-- Sample track "Song B" by "Artist Y". -/
def trackB : Track := { name := "Song B", artist := "Artist Y", album := "Album B" }

/-- Sample track "Song C" by "Artist Z". -/
def trackC : Track := { name := "Song C", artist := "Artist Z", album := "Album C" }

/-- Base world: one live Tidal session, no user resolved, every oracle
succeeding, searches finding nothing. -/
def wBase : World :=
  { sessions := ["tid-sess"]
    userRes := UserRes.noUser
    usageCount := none
    rateLimit := 50
    search := fun _ => some []
    favAddOk := fun _ => true
    fetchPlaylist := fun _ => some { id := 5, name := "Target" }
    createPlaylist := fun n _ => some { id := 77, name := n }
    bulkAddOk := fun _ _ => true
    ledger := LedgerOutcome.ok }

/-- Base valid request: two tracks to a new playlist. -/
def reqBase : Request :=
  { spotify_code := some "sp-code"
    tidal_session_id := some "tid-sess"
    tracks := [trackA, trackB]
    playlist_name := "Migrated Songs"
    target_playlist_id := none
    add_to_favorites := false }

/-- Search oracle matching only trackA's query, to id 11. -/
def searchOnlyA : String → Option (List Nat) :=
  fun q => if q = "Song A Artist X" then some [11] else some []

/-- Search oracle matching the three sample tracks to ids 11, 12, 13. -/
def searchABC : String → Option (List Nat) :=
  fun q =>
    if q = "Song A Artist X" then some [11]
    else if q = "Song B Artist Y" then some [12]
    else if q = "Song C Artist Z" then some [13]
    else some []

/-- C1 witness input: favorites migration where only trackA matches. -/
def req1 : Request := { reqBase with add_to_favorites := true }

/-- C1 witness world. -/
def w1 : World := { wBase with search := searchOnlyA }

/-- C2 witness input: twelve copies of an unmatched track, new playlist. -/
def req2 : Request := { reqBase with tracks := List.replicate 12 trackB }

/-- C3 witness world: resolved user whose daily counter already equals the
limit, so the check denies. -/
def w3 : World := { wBase with userRes := UserRes.ok "u1", usageCount := some 50 }

/-- C4 counterexample request: new-playlist migration of one track. -/
def req4 : Request := { reqBase with tracks := [trackA] }

/-- C4 counterexample world: admitted user, playlist creation raising. -/
def w4 : World :=
  { wBase with userRes := UserRes.ok "u1", search := searchOnlyA
               createPlaylist := fun _ _ => none }

/-- C4 witness world: admitted user, everything succeeding. -/
def w4ok : World := { wBase with userRes := UserRes.ok "u1", search := searchOnlyA }

/-- C5 witness request: favorites requested together with an existing
playlist id and a playlist name. -/
def req5 : Request :=
  { reqBase with add_to_favorites := true, target_playlist_id := some "pl-9" }

/-- C5 witness world. -/
def w5 : World := { wBase with search := searchOnlyA }

/-- C6 witness world: one known auth session, still pending. -/
def wAuth : AuthWorld :=
  { sessions := ["auth-sess"]
    futureDone := fun _ => false
    futureErr := fun _ => none
    sessionUser := fun _ => none }

/-- C7 witness world: every search raises. -/
def w7 : World := { wBase with search := fun _ => none }

/-- C7 witness request: favorites destination. -/
def req7 : Request := { reqBase with add_to_favorites := true }

/-- C8 witness request. -/
def mergeReq8 : MergeReq :=
  { session_id := some "tid-sess"
    source_playlist_id := some "src-pl"
    target_playlist_id := some "tgt-pl" }

/-- C8 witness world: target already holds track 1, source holds 1 and 2. -/
def mergeW8 : MergeWorld :=
  { sessions := ["tid-sess"]
    sourceTracks := [1, 2]
    targetTracks := [1]
    fetchOk := true
    addOk := fun _ => true
    deleteOk := true }

/-- C9 witness request: three tracks to favorites. -/
def req9 : Request :=
  { reqBase with tracks := [trackA, trackB, trackC], add_to_favorites := true }

/-- C9 witness world: all three tracks match but the favorites add of id 12
raises. -/
def w9 : World :=
  { wBase with search := searchABC, favAddOk := fun tid => decide (tid ≠ 12) }

/-- C10 witness world: user resolution failed, searches match only trackA. -/
def w10 : World := { wBase with userRes := UserRes.raised, search := searchOnlyA }

/- Phase lemmas. -/

/-- Each input track becomes exactly one entry of ids or of nf. -/
theorem searchPhase_length (s : String → Option (List Nat)) (ts : List Track) :
    (searchPhase s ts).ids.length + (searchPhase s ts).nf.length = ts.length := by
  induction ts with
  | nil => rfl
  | cons t ts ih =>
    rcases hs : s (searchQuery t) with _ | ids
    · simp [searchPhase, hs]
      omega
    · cases ids with
      | nil =>
        simp [searchPhase, hs]
        omega
      | cons tid rest =>
        simp [searchPhase, hs]
        omega

/-- The not-found list of the search loop is exactly the unmatched tracks
in input order. -/
theorem searchPhase_nf (s : String → Option (List Nat)) (ts : List Track) :
    (searchPhase s ts).nf = unmatchedOf s ts := by
  induction ts with
  | nil => rfl
  | cons t ts ih =>
    rcases hs : s (searchQuery t) with _ | ids
    · simp [searchPhase, hs, unmatchedOf, searchHit, List.filter_cons]
      simpa [unmatchedOf] using ih
    · cases ids with
      | nil =>
        simp [searchPhase, hs, unmatchedOf, searchHit, List.filter_cons]
        simpa [unmatchedOf] using ih
      | cons tid rest =>
        simp [searchPhase, hs, unmatchedOf, searchHit, List.filter_cons]
        simpa [unmatchedOf] using ih

/-- The search loop issues exactly one search call per input track, in
input order. -/
theorem searchPhase_evs (s : String → Option (List Nat)) (ts : List Track) :
    (searchPhase s ts).evs = ts.map (fun t => Ev.searchCall (searchQuery t)) := by
  induction ts with
  | nil => rfl
  | cons t ts ih =>
    rcases hs : s (searchQuery t) with _ | ids
    · simp [searchPhase, hs, ih]
    · cases ids with
      | nil => simp [searchPhase, hs, ih]
      | cons tid rest => simp [searchPhase, hs, ih]

/-- Search events are neither tracking calls nor destination calls. -/
theorem searchPhase_evs_class (s : String → Option (List Nat)) (ts : List Track) :
    ∀ e ∈ (searchPhase s ts).evs, isTrackingEv e = false ∧ isDestCall e = false := by
  intro e he
  rw [searchPhase_evs] at he
  rcases List.mem_map.mp he with ⟨t, _, rfl⟩
  exact ⟨rfl, rfl⟩

/-- The quota section halts either not at all or with the 429 response. -/
theorem quotaPhase_halt_cases (w : World) :
    (quotaPhase w).halt = none ∨
    (quotaPhase w).halt =
      some (Response.quotaExceeded "Daily migration limit reached" w.rateLimit) := by
  unfold quotaPhase
  cases w.userRes with
  | ok uid =>
    by_cases h : (check_rate_limit w.usageCount w.rateLimit).1 <;> simp [h]
  | okCheckRaised uid => simp
  | noUser => simp
  | raised => simp

/-- When no user is resolved, the quota section does nothing. -/
theorem quotaPhase_noUser (w : World)
    (h : w.userRes = UserRes.noUser ∨ w.userRes = UserRes.raised) :
    quotaPhase w = { user := none, evs := [], halt := none } := by
  rcases h with h | h <;> simp [quotaPhase, h]

/-- When the user is resolved and the check allows, the quota section
records the check and lets the request proceed. -/
theorem quotaPhase_allowed (w : World) (uid : String)
    (hu : w.userRes = UserRes.ok uid)
    (ha : (check_rate_limit w.usageCount w.rateLimit).1 = true) :
    quotaPhase w =
      { user := some uid, evs := [Ev.checkRateLimit uid w.rateLimit], halt := none } := by
  simp [quotaPhase, hu, ha]

/-- When the user is resolved and the check denies, the quota section halts
with the 429 response carrying the configured limit. -/
theorem quotaPhase_denied (w : World) (uid : String)
    (hu : w.userRes = UserRes.ok uid)
    (ha : (check_rate_limit w.usageCount w.rateLimit).1 = false) :
    quotaPhase w =
      { user := some uid, evs := [Ev.checkRateLimit uid w.rateLimit]
        halt := some (Response.quotaExceeded "Daily migration limit reached" w.rateLimit) } := by
  simp [quotaPhase, hu, ha]

/-- Quota-section events are tracking calls, never provider calls. -/
theorem quotaPhase_evs_class (w : World) :
    ∀ e ∈ (quotaPhase w).evs, isProviderCall e = false ∧ isDestCall e = false := by
  intro e he
  rcases hw : w.userRes with uid | uid | _ | _ <;> simp [quotaPhase, hw] at he
  · subst he
    exact ⟨rfl, rfl⟩
  · subst he
    exact ⟨rfl, rfl⟩

/-- Ledger events are tracking calls, never provider calls. -/
theorem ledgerEvents_class (o : LedgerOutcome) (uid : String) (n : Nat) :
    ∀ e ∈ ledgerEvents o uid n, isProviderCall e = false ∧ isDestCall e = false := by
  intro e he
  cases o <;> simp [ledgerEvents] at he <;>
    rcases he with rfl | rfl | rfl <;> exact ⟨rfl, rfl⟩

/-- Destination events are never tracking calls. -/
theorem destPhase_evs_class (req : Request) (w : World) (ids : List Nat) :
    ∀ e ∈ destEvsOf (destPhase req w ids), isTrackingEv e = false := by
  intro e he
  unfold destPhase newPlaylistPhase at he
  split at he
  · simp [destEvsOf] at he
    rcases he with ⟨tid, _, rfl⟩
    rfl
  · split at he
    · split at he
      · split at he
        · simp [destEvsOf] at he
          subst he
          rfl
        · split at he
          · simp [destEvsOf] at he
            rcases he with rfl | rfl
            all_goals rfl
          · split at he
            · simp [destEvsOf] at he
              rcases he with rfl | rfl
              all_goals rfl
            · simp [destEvsOf] at he
              rcases he with rfl | rfl
              all_goals rfl
      · split at he
        · simp [destEvsOf] at he
          subst he
          rfl
        · split at he
          · simp [destEvsOf] at he
            subst he
            rfl
          · split at he
            · simp [destEvsOf] at he
              rcases he with rfl | rfl
              all_goals rfl
            · simp [destEvsOf] at he
              rcases he with rfl | rfl
              all_goals rfl
    · split at he
      · simp [destEvsOf] at he
        subst he
        rfl
      · split at he
        · simp [destEvsOf] at he
          subst he
          rfl
        · split at he
          · simp [destEvsOf] at he
            rcases he with rfl | rfl
            all_goals rfl
          · simp [destEvsOf] at he
            rcases he with rfl | rfl
            all_goals rfl

/-- Request validation passed: migrate_tracks runs its body. -/
theorem migrate_tracks_eq_body (req : Request) (w : World)
    (h1 : pyTruthyOpt req.spotify_code = true)
    (h2 : validSession w.sessions req.tidal_session_id = true)
    (h3 : req.tracks.isEmpty = false) :
    migrate_tracks req w = migrate_body req w := by
  simp [migrate_tracks, h1, h2, h3]

/-- Ledger-tail events are tracking calls, never provider calls. -/
theorem ledgerTail_class (req : Request) (w : World) :
    ∀ e ∈ ledgerTail req w, isProviderCall e = false ∧ isDestCall e = false := by
  intro e he
  unfold ledgerTail at he
  rcases hd : destPhase req w (searchPhase w.search req.tracks).ids with
    ⟨pid, pname, mt, dEvs, favs⟩ | ⟨err, dEvs⟩ <;>
      rcases hu : (quotaPhase w).user with _ | uid <;> rw [hd, hu] at he <;> simp at he
  · rcases ledgerEvents_class w.ledger uid req.tracks.length e he with ⟨hp, hdc⟩
    exact ⟨hp, hdc⟩
  · subst he
    exact ⟨rfl, rfl⟩

/-- When the quota section does not halt, the trace of the body is the
quota events, then the search calls, then the destination calls, then the
database tail. -/
theorem migrate_body_events (req : Request) (w : World)
    (hq : (quotaPhase w).halt = none) :
    (migrate_body req w).events =
      (quotaPhase w).evs ++ (searchPhase w.search req.tracks).evs ++
      destEvsOf (destPhase req w (searchPhase w.search req.tracks).ids) ++
      ledgerTail req w := by
  rcases hd : destPhase req w (searchPhase w.search req.tracks).ids with
    ⟨pid, pname, mt, dEvs, favs⟩ | ⟨err, dEvs⟩ <;>
    rcases hu : (quotaPhase w).user with _ | uid <;>
      simp [migrate_body, hq, hd, ledgerTail, hu, destEvsOf]

/-- When the quota section does not halt and the destination branch
completes, the body answers the success JSON built from the search tally:
uncapped counts and the not-found list truncated to ten entries. -/
theorem migrate_body_resp_ok (req : Request) (w : World)
    (pid : Option Nat) (pname mt : String) (dEvs : List Ev) (favs : List Nat)
    (hq : (quotaPhase w).halt = none)
    (hd : destPhase req w (searchPhase w.search req.tracks).ids =
      DestRes.ok pid pname mt dEvs favs) :
    (migrate_body req w).resp = Response.ok
      { playlist_id := pid
        playlist_name := pname
        total_tracks := req.tracks.length
        migrated := (searchPhase w.search req.tracks).ids.length
        not_found := (searchPhase w.search req.tracks).nf.length
        not_found_tracks := (searchPhase w.search req.tracks).nf.take 10 } := by
  simp [migrate_body, hq, hd]

/-- When the quota section does not halt and the destination branch raises,
the body answers the 500 error. -/
theorem migrate_body_resp_fail (req : Request) (w : World)
    (err : String) (dEvs : List Ev)
    (hq : (quotaPhase w).halt = none)
    (hd : destPhase req w (searchPhase w.search req.tracks).ids =
      DestRes.fail err dEvs) :
    (migrate_body req w).resp = Response.serverError err := by
  simp [migrate_body, hq, hd]

/-- The favorites actually added are the ones the destination branch
reports. -/
theorem migrate_body_favs (req : Request) (w : World)
    (pid : Option Nat) (pname mt : String) (dEvs : List Ev) (favs : List Nat)
    (hq : (quotaPhase w).halt = none)
    (hd : destPhase req w (searchPhase w.search req.tracks).ids =
      DestRes.ok pid pname mt dEvs favs) :
    (migrate_body req w).favoritesAdded = favs := by
  simp [migrate_body, hq, hd]

/-- A destination call in the body trace comes from the destination phase,
and every destination-phase call is in the body trace. -/
theorem migrate_body_destCalls (req : Request) (w : World)
    (hq : (quotaPhase w).halt = none) :
    (∀ e ∈ (migrate_body req w).events, isDestCall e = true →
      e ∈ destEvsOf (destPhase req w (searchPhase w.search req.tracks).ids)) ∧
    (∀ e ∈ destEvsOf (destPhase req w (searchPhase w.search req.tracks).ids),
      e ∈ (migrate_body req w).events) := by
  rw [migrate_body_events req w hq]
  constructor
  · intro e he hdc
    simp only [List.mem_append] at he
    rcases he with ((hql | hs) | hdm) | hl
    · rcases quotaPhase_evs_class w e hql with ⟨_, h⟩
      rw [h] at hdc
      cases hdc
    · rcases searchPhase_evs_class w.search req.tracks e hs with ⟨_, h⟩
      rw [h] at hdc
      cases hdc
    · exact hdm
    · rcases ledgerTail_class req w e hl with ⟨_, h⟩
      rw [h] at hdc
      cases hdc
  · intro e he
    simp only [List.mem_append]
    exact Or.inl (Or.inr he)

/- Claim theorems. -/

/-- C1: for every migration request that completes successfully, the
response satisfies migrated plus the uncapped not-found count equals
total_tracks, and total_tracks is the length of the input track list. -/
theorem migrate_tracks_count_conservation (req : Request) (w : World) (b : SuccessBody)
    (h : (migrate_tracks req w).resp = Response.ok b) :
    b.migrated + b.not_found = b.total_tracks ∧ b.total_tracks = req.tracks.length := by
  unfold migrate_tracks at h
  split at h
  · simp at h
  · split at h
    · simp at h
    · split at h
      · simp at h
      · rcases quotaPhase_halt_cases w with hq | hq
        · rcases hd : destPhase req w (searchPhase w.search req.tracks).ids with
            ⟨pid, pname, mt, dEvs, favs⟩ | ⟨err, dEvs⟩
          · have hr := migrate_body_resp_ok req w pid pname mt dEvs favs hq hd
            rw [h] at hr
            rcases Response.ok.inj hr with rfl
            refine ⟨?_, rfl⟩
            exact searchPhase_length w.search req.tracks
          · have hr := migrate_body_resp_fail req w err dEvs hq hd
            rw [h] at hr
            cases hr
        · simp [migrate_body, hq] at h

/-- C1 witness: a concrete favorites migration of two tracks where only one
matches satisfies the conservation law. -/
theorem migrate_tracks_count_conservation_witness :
    ((migrate_tracks req1 w1).resp = Response.ok
      { playlist_id := none, playlist_name := "Favorites", total_tracks := 2
        migrated := 1, not_found := 1, not_found_tracks := [trackB] }) ∧
    (1 : Nat) + 1 = 2 ∧ (2 : Nat) = req1.tracks.length := by
  refine ⟨by decide, ?_⟩
  have h := migrate_tracks_count_conservation req1 w1
    { playlist_id := none, playlist_name := "Favorites", total_tracks := 2
      migrated := 1, not_found := 1, not_found_tracks := [trackB] } (by decide)
  simpa using h

/-- C2: the not_found_tracks field of a success response holds at most ten
entries, exactly the first ten unmatched tracks in discovery order, which
is input order since searches are issued sequentially, while the
not_found count itself is not capped. -/
theorem migrate_tracks_not_found_cap (req : Request) (w : World) (b : SuccessBody)
    (h : (migrate_tracks req w).resp = Response.ok b) :
    b.not_found_tracks.length ≤ 10 ∧
    b.not_found_tracks = (unmatchedOf w.search req.tracks).take 10 ∧
    b.not_found = (unmatchedOf w.search req.tracks).length := by
  unfold migrate_tracks at h
  split at h
  · simp at h
  · split at h
    · simp at h
    · split at h
      · simp at h
      · rcases quotaPhase_halt_cases w with hq | hq
        · rcases hd : destPhase req w (searchPhase w.search req.tracks).ids with
            ⟨pid, pname, mt, dEvs, favs⟩ | ⟨err, dEvs⟩
          · have hr := migrate_body_resp_ok req w pid pname mt dEvs favs hq hd
            rw [h] at hr
            rcases Response.ok.inj hr with rfl
            have hnf := searchPhase_nf w.search req.tracks
            refine ⟨?_, ?_, ?_⟩
            · simp [List.length_take]
            · simp [hnf]
            · simp [hnf]
          · have hr := migrate_body_resp_fail req w err dEvs hq hd
            rw [h] at hr
            cases hr
        · simp [migrate_body, hq] at h

/-- C2 witness: twelve copies of an unmatched track yield a success body
whose not_found count is 12 but whose not_found_tracks list has ten
entries, the first ten unmatched tracks. -/
theorem migrate_tracks_not_found_cap_witness :
    ((migrate_tracks req2 wBase).resp = Response.ok
      { playlist_id := some 77, playlist_name := "Migrated Songs", total_tracks := 12
        migrated := 0, not_found := 12
        not_found_tracks := List.replicate 10 trackB }) ∧
    (List.replicate 10 trackB).length ≤ 10 ∧
    List.replicate 10 trackB = (unmatchedOf wBase.search req2.tracks).take 10 ∧
    (12 : Nat) = (unmatchedOf wBase.search req2.tracks).length := by
  refine ⟨by decide, ?_⟩
  have h := migrate_tracks_not_found_cap req2 wBase
    { playlist_id := some 77, playlist_name := "Migrated Songs", total_tracks := 12
      migrated := 0, not_found := 12
      not_found_tracks := List.replicate 10 trackB } (by decide)
  simpa using h

/-- C3: when the quota check denies an otherwise valid migration request,
the response is 429 with the error message and the configured limit, and
no target-provider search, favorites-add, playlist-fetch, bulk-add or
create-playlist call is issued. -/
theorem migrate_tracks_quota_denied (req : Request) (w : World) (uid : String)
    (h1 : pyTruthyOpt req.spotify_code = true)
    (h2 : validSession w.sessions req.tidal_session_id = true)
    (h3 : req.tracks.isEmpty = false)
    (hu : w.userRes = UserRes.ok uid)
    (ha : (check_rate_limit w.usageCount w.rateLimit).1 = false) :
    (migrate_tracks req w).resp =
      Response.quotaExceeded "Daily migration limit reached" w.rateLimit ∧
    ∀ e ∈ (migrate_tracks req w).events, isProviderCall e = false := by
  rw [migrate_tracks_eq_body req w h1 h2 h3]
  have hq := quotaPhase_denied w uid hu ha
  constructor
  · simp [migrate_body, hq]
  · intro e he
    simp [migrate_body, hq] at he
    subst he
    rfl

/-- C3 witness: a user whose daily counter already equals the limit of 50
is answered 429 and no provider call appears in the trace. -/
theorem migrate_tracks_quota_denied_witness :
    (migrate_tracks reqBase w3).resp =
      Response.quotaExceeded "Daily migration limit reached" w3.rateLimit ∧
    ∀ e ∈ (migrate_tracks reqBase w3).events, isProviderCall e = false :=
  migrate_tracks_quota_denied reqBase w3 "u1" (by decide) (by decide) (by decide)
    (by decide) (by decide)

/-- C4 counterexample: a valid one-track request with an admitted user
(check_rate_limit allows) whose playlist creation raises.  The migration
fails with a 500 and a failed Migration row is recorded, but
increment_usage is never called, refuting the claim that the quota commit
is performed whether the migration succeeds or fails. -/
theorem migrate_tracks_commit_on_failure_cx :
    (check_rate_limit w4.usageCount w4.rateLimit).1 = true ∧
    w4.userRes = UserRes.ok "u1" ∧
    (migrate_tracks req4 w4).resp = Response.serverError "create_playlist raised" ∧
    (migrate_tracks req4 w4).events =
      [Ev.checkRateLimit "u1" 50, Ev.searchCall "Song A Artist X",
       Ev.createPlaylist "Migrated Songs" "Migrated from Spotify",
       Ev.recordMigration "failed"] ∧
    ∀ uid n, Ev.incrementUsage uid n ∉ (migrate_tracks req4 w4).events := by
  refine ⟨rfl, rfl, by decide, by decide, ?_⟩
  intro uid n hmem
  have he : (migrate_tracks req4 w4).events =
      [Ev.checkRateLimit "u1" 50, Ev.searchCall "Song A Artist X",
       Ev.createPlaylist "Migrated Songs" "Migrated from Spotify",
       Ev.recordMigration "failed"] := by decide
  rw [he] at hmem
  simp at hmem

/-- C4 amended: for every admitted migration request, increment_usage is
called exactly when the migration completes successfully and the Migration
insert before it does not raise; it bumps the attempt counter by one and
the processed-item counter by the track count.  When the migration fails,
no usage increment occurs, although the admission is not refunded either:
quota is consumed on successful completion, not on attempt. -/
theorem migrate_tracks_commit_semantics (req : Request) (w : World) (uid : String)
    (h1 : pyTruthyOpt req.spotify_code = true)
    (h2 : validSession w.sessions req.tidal_session_id = true)
    (h3 : req.tracks.isEmpty = false)
    (hu : w.userRes = UserRes.ok uid)
    (ha : (check_rate_limit w.usageCount w.rateLimit).1 = true) :
    ((∀ b, (migrate_tracks req w).resp = Response.ok b →
        w.ledger ≠ LedgerOutcome.failInsert →
        Ev.incrementUsage uid req.tracks.length ∈ (migrate_tracks req w).events) ∧
     (∀ err, (migrate_tracks req w).resp = Response.serverError err →
        ∀ u n, Ev.incrementUsage u n ∉ (migrate_tracks req w).events)) ∧
    (∀ c tc n, increment_usage (some (c, tc)) n = (c + 1, tc + n)) ∧
    (∀ n, increment_usage none n = (1, n)) := by
  rw [migrate_tracks_eq_body req w h1 h2 h3]
  have hq := quotaPhase_allowed w uid hu ha
  have hqh : (quotaPhase w).halt = none := by rw [hq]
  have hqu : (quotaPhase w).user = some uid := by rw [hq]
  refine ⟨⟨?_, ?_⟩, fun c tc n => rfl, fun n => rfl⟩
  · intro b hb hnl
    rcases hd : destPhase req w (searchPhase w.search req.tracks).ids with
      ⟨pid, pname, mt, dEvs, favs⟩ | ⟨err, dEvs⟩
    · rw [migrate_body_events req w hqh]
      have hl : Ev.incrementUsage uid req.tracks.length ∈ ledgerTail req w := by
        unfold ledgerTail
        rw [hd, hqu]
        cases hledger : w.ledger <;> simp [ledgerEvents]
        exact absurd hledger hnl
      simp only [List.mem_append]
      exact Or.inr hl
    · have hr := migrate_body_resp_fail req w err dEvs hqh hd
      rw [hb] at hr
      cases hr
  · intro err herr u n hmem
    rcases hd : destPhase req w (searchPhase w.search req.tracks).ids with
      ⟨pid, pname, mt, dEvs, favs⟩ | ⟨err2, dEvs⟩
    · have hr := migrate_body_resp_ok req w pid pname mt dEvs favs hqh hd
      rw [herr] at hr
      cases hr
    · rw [migrate_body_events req w hqh] at hmem
      simp only [List.mem_append] at hmem
      rcases hmem with ((hql | hs) | hdm) | hl
      · rw [hq] at hql
        simp at hql
      · rw [searchPhase_evs] at hs
        rcases List.mem_map.mp hs with ⟨t, _, ht⟩
        cases ht
      · have hfalse := destPhase_evs_class req w (searchPhase w.search req.tracks).ids
          (Ev.incrementUsage u n) hdm
        simp [isTrackingEv] at hfalse
      · unfold ledgerTail at hl
        rw [hd, hqu] at hl
        simp at hl

/-- C4 amended witness: in a fully succeeding run with an admitted user the
usage increment for the one-track request appears in the trace. -/
theorem migrate_tracks_commit_semantics_witness :
    Ev.incrementUsage "u1" 1 ∈ (migrate_tracks req4 w4ok).events ∧
    increment_usage (some (3, 10)) 1 = (4, 11) ∧
    increment_usage none 1 = (1, 1) := by
  have h := migrate_tracks_commit_semantics req4 w4ok "u1" (by decide) (by decide)
    (by decide) rfl (by decide)
  refine ⟨?_, h.2.1 3 10 1, h.2.2 1⟩
  refine h.1.1
    { playlist_id := some 77, playlist_name := "Migrated Songs", total_tracks := 1
      migrated := 1, not_found := 0, not_found_tracks := [] } (by decide) (by decide)

/-- A destination call sits in the body trace exactly when the destination
phase issued it. -/
theorem destCall_events_iff (req : Request) (w : World)
    (hq : (quotaPhase w).halt = none) (e : Ev) (hdc : isDestCall e = true) :
    e ∈ (migrate_body req w).events ↔
      e ∈ destEvsOf (destPhase req w (searchPhase w.search req.tracks).ids) := by
  constructor
  · exact fun he => (migrate_body_destCalls req w hq).1 e he hdc
  · exact fun he => (migrate_body_destCalls req w hq).2 e he

/-- C5: with several destination fields set, the destination used follows
the fixed priority Favorites over ExistingPlaylist over NewPlaylist.
With add_to_favorites the matched ids go to favorites one by one and no
playlist is fetched, created or bulk-added, whatever target_playlist_id
and playlist_name say; otherwise a truthy target_playlist_id is fetched
and bulk-added to, and no playlist is created and nothing goes to
favorites; otherwise a playlist named by the request is created and
bulk-added to. -/
theorem migrate_tracks_destination_priority (req : Request) (w : World)
    (h1 : pyTruthyOpt req.spotify_code = true)
    (h2 : validSession w.sessions req.tidal_session_id = true)
    (h3 : req.tracks.isEmpty = false)
    (hq : (quotaPhase w).halt = none) :
    (req.add_to_favorites = true →
      (∀ pid, Ev.fetchPlaylist pid ∉ (migrate_tracks req w).events) ∧
      (∀ p tids, Ev.playlistAdd p tids ∉ (migrate_tracks req w).events) ∧
      (∀ n d, Ev.createPlaylist n d ∉ (migrate_tracks req w).events) ∧
      (∀ tid ∈ (searchPhase w.search req.tracks).ids,
        Ev.favAdd tid ∈ (migrate_tracks req w).events) ∧
      (∃ b, (migrate_tracks req w).resp = Response.ok b ∧
        b.playlist_id = none ∧ b.playlist_name = "Favorites")) ∧
    (∀ pid, req.add_to_favorites = false → req.target_playlist_id = some pid →
      pid.isEmpty = false →
      (∀ n d, Ev.createPlaylist n d ∉ (migrate_tracks req w).events) ∧
      (∀ tid, Ev.favAdd tid ∉ (migrate_tracks req w).events) ∧
      Ev.fetchPlaylist pid ∈ (migrate_tracks req w).events ∧
      (∀ pl, w.fetchPlaylist pid = some pl →
        (searchPhase w.search req.tracks).ids.isEmpty = false →
        Ev.playlistAdd pl.id (searchPhase w.search req.tracks).ids ∈
          (migrate_tracks req w).events)) ∧
    (req.add_to_favorites = false → pyTruthyOpt req.target_playlist_id = false →
      (∀ pid, Ev.fetchPlaylist pid ∉ (migrate_tracks req w).events) ∧
      (∀ tid, Ev.favAdd tid ∉ (migrate_tracks req w).events) ∧
      Ev.createPlaylist req.playlist_name "Migrated from Spotify" ∈
        (migrate_tracks req w).events ∧
      (∀ pl, w.createPlaylist req.playlist_name "Migrated from Spotify" = some pl →
        (searchPhase w.search req.tracks).ids.isEmpty = false →
        Ev.playlistAdd pl.id (searchPhase w.search req.tracks).ids ∈
          (migrate_tracks req w).events)) := by
  rw [migrate_tracks_eq_body req w h1 h2 h3]
  refine ⟨?_, ?_, ?_⟩
  · intro hf
    have hd : destPhase req w (searchPhase w.search req.tracks).ids =
        DestRes.ok none "Favorites" "favorites"
          ((searchPhase w.search req.tracks).ids.map Ev.favAdd)
          ((searchPhase w.search req.tracks).ids.filter w.favAddOk) := by
      simp [destPhase, hf]
    refine ⟨?_, ?_, ?_, ?_, ?_⟩
    · intro pid hmem
      have hm := (destCall_events_iff req w hq _ (by rfl)).mp hmem
      rw [hd] at hm
      simp [destEvsOf] at hm
    · intro p tids hmem
      have hm := (destCall_events_iff req w hq _ (by rfl)).mp hmem
      rw [hd] at hm
      simp [destEvsOf] at hm
    · intro n d hmem
      have hm := (destCall_events_iff req w hq _ (by rfl)).mp hmem
      rw [hd] at hm
      simp [destEvsOf] at hm
    · intro tid htid
      refine (destCall_events_iff req w hq _ (by rfl)).mpr ?_
      rw [hd]
      simp [destEvsOf]
      exact htid
    · refine ⟨_, migrate_body_resp_ok req w none "Favorites" "favorites" _ _ hq hd, rfl, rfl⟩
  · intro pid hf htgt hne
    have hbranch : destPhase req w (searchPhase w.search req.tracks).ids =
        (match w.fetchPlaylist pid with
         | none => DestRes.fail "playlist fetch raised" [Ev.fetchPlaylist pid]
         | some pl =>
           if (searchPhase w.search req.tracks).ids.isEmpty then
             DestRes.ok (some pl.id) pl.name "existing_playlist" [Ev.fetchPlaylist pid] []
           else if w.bulkAddOk pl.id (searchPhase w.search req.tracks).ids then
             DestRes.ok (some pl.id) pl.name "existing_playlist"
               [Ev.fetchPlaylist pid,
                Ev.playlistAdd pl.id (searchPhase w.search req.tracks).ids] []
           else
             DestRes.fail "playlist add raised"
               [Ev.fetchPlaylist pid,
                Ev.playlistAdd pl.id (searchPhase w.search req.tracks).ids]) := by
      simp [destPhase, hf, htgt, hne]
    refine ⟨?_, ?_, ?_, ?_⟩
    · intro n d hmem
      have hm := (destCall_events_iff req w hq _ (by rfl)).mp hmem
      rw [hbranch] at hm
      rcases hfp : w.fetchPlaylist pid with _ | pl <;> rw [hfp] at hm
      · simp [destEvsOf] at hm
      · by_cases hids : (searchPhase w.search req.tracks).ids.isEmpty <;>
          by_cases hba : w.bulkAddOk pl.id (searchPhase w.search req.tracks).ids <;>
            simp [destEvsOf, hids, hba] at hm
    · intro tid hmem
      have hm := (destCall_events_iff req w hq _ (by rfl)).mp hmem
      rw [hbranch] at hm
      rcases hfp : w.fetchPlaylist pid with _ | pl <;> rw [hfp] at hm
      · simp [destEvsOf] at hm
      · by_cases hids : (searchPhase w.search req.tracks).ids.isEmpty <;>
          by_cases hba : w.bulkAddOk pl.id (searchPhase w.search req.tracks).ids <;>
            simp [destEvsOf, hids, hba] at hm
    · refine (destCall_events_iff req w hq _ (by rfl)).mpr ?_
      rw [hbranch]
      rcases hfp : w.fetchPlaylist pid with _ | pl
      · simp [destEvsOf]
      · by_cases hids : (searchPhase w.search req.tracks).ids.isEmpty <;>
          by_cases hba : w.bulkAddOk pl.id (searchPhase w.search req.tracks).ids <;>
            simp [destEvsOf, hids, hba]
    · intro pl hfp hids
      refine (destCall_events_iff req w hq _ (by rfl)).mpr ?_
      rw [hbranch, hfp]
      by_cases hba : w.bulkAddOk pl.id (searchPhase w.search req.tracks).ids <;>
        simp [destEvsOf, hids, hba]
  · intro hf htf
    have hnew : destPhase req w (searchPhase w.search req.tracks).ids =
        newPlaylistPhase req w (searchPhase w.search req.tracks).ids := by
      rcases ht : req.target_playlist_id with _ | pid
      · simp [destPhase, hf, ht]
      · rw [ht] at htf
        simp [pyTruthyOpt] at htf
        simp [destPhase, hf, ht, htf]
    refine ⟨?_, ?_, ?_, ?_⟩
    · intro pid hmem
      have hm := (destCall_events_iff req w hq _ (by rfl)).mp hmem
      rw [hnew] at hm
      unfold newPlaylistPhase at hm
      rcases hcp : w.createPlaylist req.playlist_name "Migrated from Spotify" with _ | pl <;>
        rw [hcp] at hm
      · simp [destEvsOf] at hm
      · by_cases hids : (searchPhase w.search req.tracks).ids.isEmpty <;>
          by_cases hba : w.bulkAddOk pl.id (searchPhase w.search req.tracks).ids <;>
            simp [destEvsOf, hids, hba] at hm
    · intro tid hmem
      have hm := (destCall_events_iff req w hq _ (by rfl)).mp hmem
      rw [hnew] at hm
      unfold newPlaylistPhase at hm
      rcases hcp : w.createPlaylist req.playlist_name "Migrated from Spotify" with _ | pl <;>
        rw [hcp] at hm
      · simp [destEvsOf] at hm
      · by_cases hids : (searchPhase w.search req.tracks).ids.isEmpty <;>
          by_cases hba : w.bulkAddOk pl.id (searchPhase w.search req.tracks).ids <;>
            simp [destEvsOf, hids, hba] at hm
    · refine (destCall_events_iff req w hq _ (by rfl)).mpr ?_
      rw [hnew]
      unfold newPlaylistPhase
      rcases hcp : w.createPlaylist req.playlist_name "Migrated from Spotify" with _ | pl
      · simp [destEvsOf]
      · by_cases hids : (searchPhase w.search req.tracks).ids.isEmpty <;>
          by_cases hba : w.bulkAddOk pl.id (searchPhase w.search req.tracks).ids <;>
            simp [destEvsOf, hids, hba]
    · intro pl hcp hids
      refine (destCall_events_iff req w hq _ (by rfl)).mpr ?_
      rw [hnew]
      unfold newPlaylistPhase
      rw [hcp]
      by_cases hba : w.bulkAddOk pl.id (searchPhase w.search req.tracks).ids <;>
        simp [destEvsOf, hids, hba]

/-- C5 witness: with both add_to_favorites and a target playlist id set,
the favorites destination wins; the matched id is favorites-added, no
playlist fetch happens, and the response reports the Favorites
destination. -/
theorem migrate_tracks_destination_priority_witness :
    (∀ pid, Ev.fetchPlaylist pid ∉ (migrate_tracks req5 w5).events) ∧
    (∀ n d, Ev.createPlaylist n d ∉ (migrate_tracks req5 w5).events) ∧
    Ev.favAdd 11 ∈ (migrate_tracks req5 w5).events ∧
    (∃ b, (migrate_tracks req5 w5).resp = Response.ok b ∧
      b.playlist_id = none ∧ b.playlist_name = "Favorites") := by
  have h := migrate_tracks_destination_priority req5 w5 (by decide) (by decide)
    (by decide) (by decide)
  rcases h.1 rfl with ⟨hfetch, _, hcreate, hfav, hresp⟩
  refine ⟨hfetch, hcreate, ?_, hresp⟩
  refine hfav 11 ?_
  have : (searchPhase w5.search req5.tracks).ids = [11] := by decide
  rw [this]
  exact List.mem_singleton.mpr rfl

/-- C6: polling the authorization-status endpoint with a missing or unknown
session id answers exactly authenticated false with the "Invalid session"
error at HTTP 200; the branch is a total early return, so no exception
reaches the caller. -/
theorem tidal_check_auth_invalid_session (sid : Option String) (w : AuthWorld)
    (h : sid = none ∨ ∃ s, sid = some s ∧
      (s.isEmpty = true ∨ w.sessions.contains s = false)) :
    tidal_check_auth sid w =
      ({ authenticated := false, error := some "Invalid session", user := none }, 200) := by
  rcases h with rfl | ⟨s, rfl, hs⟩
  · rfl
  · rcases hs with hs | hs
    · simp [tidal_check_auth, hs]
    · have hs2 : s ∉ w.sessions := by simpa using hs
      simp [tidal_check_auth, hs2]

/-- C6 witness: an id absent from the session map gets the invalid-session
response. -/
theorem tidal_check_auth_invalid_session_witness :
    tidal_check_auth (some "nope") wAuth =
      ({ authenticated := false, error := some "Invalid session", user := none }, 200) :=
  tidal_check_auth_invalid_session (some "nope") wAuth
    (Or.inr ⟨"nope", rfl, Or.inr (by decide)⟩)

/-- C7: a migration of a non-empty track list in which every search raises
or returns nothing is still a success response with migrated 0 and
not_found equal to the number of input tracks, provided the
destination-side playlist fetch or creation does not itself fail. -/
theorem migrate_tracks_zero_matches (req : Request) (w : World)
    (h1 : pyTruthyOpt req.spotify_code = true)
    (h2 : validSession w.sessions req.tidal_session_id = true)
    (h3 : req.tracks.isEmpty = false)
    (hq : (quotaPhase w).halt = none)
    (hmiss : ∀ t ∈ req.tracks, searchHit (w.search (searchQuery t)) = false)
    (hdest : req.add_to_favorites = true ∨
      (∃ pid, req.add_to_favorites = false ∧ req.target_playlist_id = some pid ∧
        pid.isEmpty = false ∧ (w.fetchPlaylist pid).isSome = true) ∨
      (req.add_to_favorites = false ∧ pyTruthyOpt req.target_playlist_id = false ∧
        (w.createPlaylist req.playlist_name "Migrated from Spotify").isSome = true)) :
    ∃ b, (migrate_tracks req w).resp = Response.ok b ∧
      b.migrated = 0 ∧ b.not_found = req.tracks.length ∧
      b.total_tracks = req.tracks.length := by
  rw [migrate_tracks_eq_body req w h1 h2 h3]
  have hnf : (searchPhase w.search req.tracks).nf = req.tracks := by
    rw [searchPhase_nf]
    refine List.filter_eq_self.mpr ?_
    intro a ha
    simp [hmiss a ha]
  have hlen := searchPhase_length w.search req.tracks
  rw [hnf] at hlen
  have hids : (searchPhase w.search req.tracks).ids = [] := by
    have : (searchPhase w.search req.tracks).ids.length = 0 := by omega
    exact List.length_eq_zero.mp this
  rcases hdest with hf | ⟨pid, hf, ht, hpe, hfp⟩ | ⟨hf, htf, hcp⟩
  · have hd : destPhase req w (searchPhase w.search req.tracks).ids =
        DestRes.ok none "Favorites" "favorites" [] [] := by
      simp [destPhase, hf, hids]
    exact ⟨_, migrate_body_resp_ok req w none "Favorites" "favorites" [] [] hq hd,
      by simp [hids], by simp [hnf], rfl⟩
  · rcases Option.isSome_iff_exists.mp hfp with ⟨pl, hpl⟩
    have hd : destPhase req w (searchPhase w.search req.tracks).ids =
        DestRes.ok (some pl.id) pl.name "existing_playlist" [Ev.fetchPlaylist pid] [] := by
      simp [destPhase, hf, ht, hpe, hpl, hids]
    exact ⟨_, migrate_body_resp_ok req w (some pl.id) pl.name "existing_playlist"
      [Ev.fetchPlaylist pid] [] hq hd, by simp [hids], by simp [hnf], rfl⟩
  · rcases Option.isSome_iff_exists.mp hcp with ⟨pl, hpl⟩
    have hnew : destPhase req w (searchPhase w.search req.tracks).ids =
        newPlaylistPhase req w (searchPhase w.search req.tracks).ids := by
      rcases ht : req.target_playlist_id with _ | pid2
      · simp [destPhase, hf, ht]
      · rw [ht] at htf
        simp [pyTruthyOpt] at htf
        simp [destPhase, hf, ht, htf]
    have hd : destPhase req w (searchPhase w.search req.tracks).ids =
        DestRes.ok (some pl.id) pl.name "new_playlist"
          [Ev.createPlaylist req.playlist_name "Migrated from Spotify"] [] := by
      rw [hnew]
      simp [newPlaylistPhase, hpl, hids]
    exact ⟨_, migrate_body_resp_ok req w (some pl.id) pl.name "new_playlist"
      [Ev.createPlaylist req.playlist_name "Migrated from Spotify"] [] hq hd,
      by simp [hids], by simp [hnf], rfl⟩

/-- C7 witness: two tracks whose searches both raise still produce a
success with migrated 0 and not_found 2. -/
theorem migrate_tracks_zero_matches_witness :
    ∃ b, (migrate_tracks req7 w7).resp = Response.ok b ∧
      b.migrated = 0 ∧ b.not_found = req7.tracks.length ∧
      b.total_tracks = req7.tracks.length := by
  refine migrate_tracks_zero_matches req7 w7 (by decide) (by decide) (by decide)
    (by decide) ?_ (Or.inl rfl)
  intro t ht
  rfl

/-- Counting occurrences after filtering away the elements of tgt: an
element of tgt is gone entirely, any other element keeps its count. -/
theorem count_filter_not_mem (src tgt : List Nat) (x : Nat) :
    (src.filter (fun t => decide (t ∉ tgt))).count x =
      if x ∈ tgt then 0 else src.count x := by
  induction src with
  | nil => simp
  | cons a src ih =>
    by_cases hm : a ∈ tgt
    · have hp : decide (a ∉ tgt) = false := by simp [hm]
      rw [List.filter_cons, hp]
      simp only [Bool.false_eq_true, if_false]
      rw [ih]
      by_cases hx : x ∈ tgt
      · simp [hx]
      · have hne : x ≠ a := fun h => hx (h ▸ hm)
        simp [hx, List.count_cons_of_ne hne]
    · have hp : decide (a ∉ tgt) = true := by simp [hm]
      rw [List.filter_cons, hp]
      simp only [if_true]
      by_cases hx : x ∈ tgt
      · have hne : x ≠ a := fun h => hm (h ▸ hx)
        rw [List.count_cons_of_ne hne, ih]
        simp [hx]
      · rw [List.count_cons, List.count_cons, ih]
        simp [hx]

/-- C8: merging two distinct existing playlists adds to the target only the
source tracks not already present (so every track's final multiplicity in
the target is its old target multiplicity, or its source multiplicity if
it was absent), and the source playlist is deleted as the final step of
the call trace, after the add step; in particular with target holding T
once and source holding exactly T then U, the target afterwards holds T
and U exactly once each. -/
theorem tidal_merge_playlists_spec (req : MergeReq) (w : MergeWorld)
    (hs : validSession w.sessions req.session_id = true)
    (hsp : pyTruthyOpt req.source_playlist_id = true)
    (htp : pyTruthyOpt req.target_playlist_id = true)
    (hne : req.source_playlist_id ≠ req.target_playlist_id)
    (hf : w.fetchOk = true)
    (ha : ∀ t, w.addOk t = true)
    (hdel : w.deleteOk = true) :
    (∀ x, (tidal_merge_playlists req w).targetAfter.count x =
      if x ∈ w.targetTracks then w.targetTracks.count x else w.sourceTracks.count x) ∧
    (tidal_merge_playlists req w).sourceDeleted = true ∧
    (tidal_merge_playlists req w).events.getLast? = some MEv.deleteSource ∧
    (∀ T U, w.targetTracks.count T = 1 → w.sourceTracks = [T, U] → T ≠ U →
      U ∉ w.targetTracks →
      (tidal_merge_playlists req w).targetAfter.count T = 1 ∧
      (tidal_merge_playlists req w).targetAfter.count U = 1) := by
  have hta : (tidal_merge_playlists req w).targetAfter
      = w.targetTracks ++ w.sourceTracks.filter (fun t => decide (t ∉ w.targetTracks)) := by
    simp [tidal_merge_playlists, hs, hsp, htp, hne, hf, hdel]
    exact List.filter_congr (fun a _ => by rw [ha a, Bool.true_and])
  have hcount : ∀ x, (tidal_merge_playlists req w).targetAfter.count x =
      if x ∈ w.targetTracks then w.targetTracks.count x else w.sourceTracks.count x := by
    intro x
    rw [hta, List.count_append, count_filter_not_mem]
    by_cases hx : x ∈ w.targetTracks
    · simp [hx]
    · simp [hx, List.count_eq_zero_of_not_mem hx]
  refine ⟨hcount, ?_, ?_, ?_⟩
  · simp [tidal_merge_playlists, hs, hsp, htp, hne, hf, hdel]
  · have hev : (tidal_merge_playlists req w).events =
        ([MEv.fetchPlaylist (req.source_playlist_id.getD ""),
          MEv.fetchPlaylist (req.target_playlist_id.getD "")] ++
         (w.sourceTracks.filter (fun t => decide (t ∉ w.targetTracks))).map MEv.addTrack) ++
        [MEv.deleteSource] := by
      simp [tidal_merge_playlists, hs, hsp, htp, hne, hf, hdel]
    rw [hev, List.getLast?_concat]
  · intro T U hT hsrc hTU hU
    constructor
    · rw [hcount T]
      have hTm : T ∈ w.targetTracks := List.count_pos_iff.mp (by omega)
      simp [hTm, hT]
    · rw [hcount U]
      rw [if_neg hU, hsrc, List.count_cons_of_ne (Ne.symm hTU), List.count_singleton_self]

/-- C8 witness: target [1], source [1, 2], all calls succeeding: afterwards
the target holds 1 and 2 exactly once each, the source is deleted, and the
delete is the last call. -/
theorem tidal_merge_playlists_spec_witness :
    (tidal_merge_playlists mergeReq8 mergeW8).targetAfter.count 1 = 1 ∧
    (tidal_merge_playlists mergeReq8 mergeW8).targetAfter.count 2 = 1 ∧
    (tidal_merge_playlists mergeReq8 mergeW8).sourceDeleted = true ∧
    (tidal_merge_playlists mergeReq8 mergeW8).events.getLast? = some MEv.deleteSource := by
  have h := tidal_merge_playlists_spec mergeReq8 mergeW8 (by decide) (by decide)
    (by decide) (by decide) rfl (fun t => rfl) rfl
  rcases h with ⟨hcount, hsd, hlast, hscen⟩
  rcases hscen 1 2 (by decide) rfl (by decide) (by decide) with ⟨hc1, hc2⟩
  exact ⟨hc1, hc2, hsd, hlast⟩

/-- C9: with the favorites destination, individual favorites-add failures
neither abort the remaining adds nor change the reported migrated count:
the response reports the search-phase tally, every matched id is
attempted, and only the ids whose add succeeded land in favorites. -/
theorem migrate_tracks_favorites_nonfatal (req : Request) (w : World)
    (h1 : pyTruthyOpt req.spotify_code = true)
    (h2 : validSession w.sessions req.tidal_session_id = true)
    (h3 : req.tracks.isEmpty = false)
    (hq : (quotaPhase w).halt = none)
    (hf : req.add_to_favorites = true) :
    ∃ b, (migrate_tracks req w).resp = Response.ok b ∧
      b.migrated = (searchPhase w.search req.tracks).ids.length ∧
      (migrate_tracks req w).favoritesAdded =
        (searchPhase w.search req.tracks).ids.filter w.favAddOk ∧
      (∀ tid ∈ (searchPhase w.search req.tracks).ids,
        Ev.favAdd tid ∈ (migrate_tracks req w).events) := by
  rw [migrate_tracks_eq_body req w h1 h2 h3]
  have hd : destPhase req w (searchPhase w.search req.tracks).ids =
      DestRes.ok none "Favorites" "favorites"
        ((searchPhase w.search req.tracks).ids.map Ev.favAdd)
        ((searchPhase w.search req.tracks).ids.filter w.favAddOk) := by
    simp [destPhase, hf]
  refine ⟨_, migrate_body_resp_ok req w none "Favorites" "favorites" _ _ hq hd, rfl,
    migrate_body_favs req w none "Favorites" "favorites" _ _ hq hd, ?_⟩
  intro tid htid
  refine (destCall_events_iff req w hq (Ev.favAdd tid) rfl).mpr ?_
  rw [hd]
  simp [destEvsOf]
  exact htid

/-- C9 witness: three matched tracks with the favorites add of id 12
raising still report migrated 3, attempt the add of 12, and actually add
only 11 and 13. -/
theorem migrate_tracks_favorites_nonfatal_witness :
    ∃ b, (migrate_tracks req9 w9).resp = Response.ok b ∧
      b.migrated = 3 ∧
      (migrate_tracks req9 w9).favoritesAdded = [11, 13] ∧
      Ev.favAdd 12 ∈ (migrate_tracks req9 w9).events := by
  obtain ⟨b, hresp, hmig, hfavs, hmem⟩ :=
    migrate_tracks_favorites_nonfatal req9 w9 (by decide) (by decide) (by decide)
      (by decide) rfl
  have hids : (searchPhase w9.search req9.tracks).ids = [11, 12, 13] := by decide
  refine ⟨b, hresp, ?_, ?_, ?_⟩
  · rw [hmig, hids]
    rfl
  · rw [hfavs, hids]
    decide
  · refine hmem 12 ?_
    rw [hids]
    decide

/-- C10: when user resolution fails, the otherwise valid migration request
is served without any tracking: no rate-limit check, no Migration row, no
usage increment and no activity log appear in the trace, the response is
never 429, and the migration proceeds, searching every input track. -/
theorem migrate_tracks_no_user_tracking_skip (req : Request) (w : World)
    (h1 : pyTruthyOpt req.spotify_code = true)
    (h2 : validSession w.sessions req.tidal_session_id = true)
    (h3 : req.tracks.isEmpty = false)
    (hu : w.userRes = UserRes.noUser ∨ w.userRes = UserRes.raised) :
    (∀ e ∈ (migrate_tracks req w).events, isTrackingEv e = false) ∧
    (∀ msg limit, (migrate_tracks req w).resp ≠ Response.quotaExceeded msg limit) ∧
    (∀ t ∈ req.tracks, Ev.searchCall (searchQuery t) ∈ (migrate_tracks req w).events) := by
  rw [migrate_tracks_eq_body req w h1 h2 h3]
  have hqp := quotaPhase_noUser w hu
  have hq : (quotaPhase w).halt = none := by rw [hqp]
  have hqu : (quotaPhase w).user = none := by rw [hqp]
  refine ⟨?_, ?_, ?_⟩
  · intro e he
    rw [migrate_body_events req w hq] at he
    simp only [List.mem_append] at he
    rcases he with ((hql | hs) | hdm) | hl
    · rw [hqp] at hql
      simp at hql
    · exact (searchPhase_evs_class w.search req.tracks e hs).1
    · exact destPhase_evs_class req w _ e hdm
    · unfold ledgerTail at hl
      rw [hqu] at hl
      rcases hd : destPhase req w (searchPhase w.search req.tracks).ids with
        ⟨pid, pname, mt, dEvs, favs⟩ | ⟨err, dEvs⟩ <;> rw [hd] at hl <;> simp at hl
  · intro msg limit
    rcases hd : destPhase req w (searchPhase w.search req.tracks).ids with
      ⟨pid, pname, mt, dEvs, favs⟩ | ⟨err, dEvs⟩
    · rw [migrate_body_resp_ok req w pid pname mt dEvs favs hq hd]
      simp
    · rw [migrate_body_resp_fail req w err dEvs hq hd]
      simp
  · intro t ht
    rw [migrate_body_events req w hq]
    simp only [List.mem_append]
    refine Or.inl (Or.inl (Or.inr ?_))
    rw [searchPhase_evs]
    exact List.mem_map.mpr ⟨t, ht, rfl⟩

/-- C10 witness: with user resolution raising, the two-track request is
served with no tracking events, a non-429 response, and both searches
issued. -/
theorem migrate_tracks_no_user_tracking_skip_witness :
    (∀ e ∈ (migrate_tracks reqBase w10).events, isTrackingEv e = false) ∧
    (∀ msg limit, (migrate_tracks reqBase w10).resp ≠ Response.quotaExceeded msg limit) ∧
    (∀ t ∈ reqBase.tracks, Ev.searchCall (searchQuery t) ∈ (migrate_tracks reqBase w10).events) :=
  migrate_tracks_no_user_tracking_skip reqBase w10 (by decide) (by decide) (by decide)
    (Or.inr rfl)
